import Mathlib

/-!
Verification of the tauri CLI dev-watcher supervisor core
(`src/tooling/cli/src/interface/rust.rs`) and of the iOS project
generator callback (`src/tooling/cli/src/mobile/ios/project.rs`),
via a shallow embedding in Lean.

Filesystem paths, external processes and channels are modelled
explicitly: a path is an absoluteness flag plus a component list,
every external collaborator outcome (config reload, manifest rewrite,
kill, spawn, `try_wait` polls) is an explicit parameter, and the
control loop is embedded as a function from an event list to the trace
of primitive actions it performs.
-/

namespace TauriDev

/-- A filesystem path: absoluteness flag plus component list.
Mirrors Rust `PathBuf` for the operations the code uses
(`join`, `file_name`, equality). -/
structure MPath where
  absolute : Bool
  components : List String
deriving DecidableEq, Repr

/-- Rust `Path::join`: joining an absolute path replaces the receiver,
joining a relative path appends its components. -/
def MPath.join (a b : MPath) : MPath :=
  if b.absolute then b else ⟨a.absolute, a.components ++ b.components⟩

/-- Rust `Path::file_name`: the final component, if any. -/
def MPath.fileName (p : MPath) : Option String :=
  p.components.getLast?

/-- The `workspace` section of the root `Cargo.toml`
(struct `WorkspaceSettings` in the source): an optional member list.
Members are modelled as paths so that `workspace_path.join(p)` keeps
Rust join semantics. -/
structure WorkspaceSettings where
  members : Option (List MPath)
deriving DecidableEq, Repr

/-- A `[[bin]]` entry of `Cargo.toml` (struct `BinarySettings`). -/
structure BinarySettings where
  name : String
  path : Option String
deriving DecidableEq, Repr

/-- The `package` section of `Cargo.toml` (struct `CargoPackageSettings`). -/
structure CargoPackageSettings where
  name : Option String
  version : Option String
  description : Option String
  homepage : Option String
  authors : Option (List String)
  default_run : Option String
deriving DecidableEq, Repr

/-- The root `Cargo.toml` descriptor (struct `CargoSettings`). -/
structure CargoSettings where
  package : Option CargoPackageSettings
  workspace : Option WorkspaceSettings
  bin : Option (List BinarySettings)
deriving DecidableEq, Repr

/-- Output of `cargo metadata --no-deps --format-version 1`
(struct `CargoMetadata`). -/
structure CargoMetadata where
  target_directory : MPath
  workspace_root : MPath
deriving DecidableEq, Repr

/-- Captured output of an external command (`std::process::Output`):
success flag of the exit status, stdout and stderr as strings. -/
structure CmdOutput where
  success : Bool
  stdout : String
  stderr : String
deriving DecidableEq, Repr

/-- The errors the supervisor can return to its caller. -/
inductive DevError
  | metadataNonZeroExit (stderr : String)
  | metadataParseFailed
  | cargoTomlLoadFailed
  | reloadConfigFailed
  | rewriteManifestFailed
  | killFailed
  | spawnFailed
deriving DecidableEq, Repr

/-- Function `get_cargo_metadata`: runs `cargo metadata`; a non-success exit
status is an error carrying stderr, otherwise the stdout is parsed
(the JSON parser is an explicit parameter). -/
def get_cargo_metadata (output : CmdOutput)
    (parseMetadata : String → Option CargoMetadata) :
    Except DevError CargoMetadata :=
  if !output.success then
    Except.error (DevError.metadataNonZeroExit output.stderr)
  else
    match parseMetadata output.stdout with
    | some m => Except.ok m
    | none => Except.error DevError.metadataParseFailed

/-- Function `get_workspace_dir`: the `workspace_root` field of the metadata. -/
def get_workspace_dir (output : CmdOutput)
    (parseMetadata : String → Option CargoMetadata) :
    Except DevError MPath :=
  (get_cargo_metadata output parseMetadata).map CargoMetadata.workspace_root

/-- The `watch_folders` computation of `Rust::run_dev_watcher`
(lines 311-327): if the tauri directory equals the workspace root the
scope is that single directory; otherwise the workspace root
`Cargo.toml` is loaded (`loadCargo` is its result) and the scope is the
member list joined onto the workspace root, the fallback
`vec![tauri_path]` applying only when the manifest has no `workspace`
section at all (`workspace.as_ref().map(...).unwrap_or_else(...)`);
a `workspace` section with no `members` key yields
`members.clone().unwrap_or_default()`, the empty list. -/
def watch_folders (tauri_path workspace_path : MPath)
    (loadCargo : Except DevError CargoSettings) :
    Except DevError (List MPath) :=
  if tauri_path = workspace_path then
    Except.ok [tauri_path]
  else
    match loadCargo with
    | Except.error e => Except.error e
    | Except.ok cargo_settings =>
      Except.ok
        (match cargo_settings.workspace with
         | some w => (w.members.getD []).map (fun p => workspace_path.join p)
         | none => [tauri_path])

/-- The debounced filesystem notifications of the `notify` crate
(`DebouncedEvent`), as matched by the control loop. -/
inductive DebouncedEvent
  | noticeWrite (p : MPath)
  | noticeRemove (p : MPath)
  | create (p : MPath)
  | write (p : MPath)
  | chmod (p : MPath)
  | remove (p : MPath)
  | rename (src dest : MPath)
  | rescan
  | errorEvent (p : Option MPath)
deriving DecidableEq, Repr

/-- The `event_path` match of `Rust::run_dev_watcher` (lines 350-356):
Create, Remove, Rename and Write carry a path (Rename contributes its
destination); every other notification kind maps to `None`. -/
def eventPath : DebouncedEvent → Option MPath
  | DebouncedEvent.create p => some p
  | DebouncedEvent.remove p => some p
  | DebouncedEvent.rename _ dest => some dest
  | DebouncedEvent.write p => some p
  | _ => none

/-- One result of `child.try_wait()`: an `Err`, `Ok(None)` (still
running), or `Ok(Some(status))` (exited; the status is discarded by the
source's `Ok(Some(_))` pattern). -/
inductive TryWaitRes
  | errRes
  | notExited
  | exited
deriving DecidableEq, Repr

/-- The post-kill busy loop of `run_dev_watcher` (lines 370-374):
`loop { if let Ok(Some(_)) = p.try_wait() { break } }`.
`tw n` is the result of the `n`-th `try_wait` call; the loop breaks at
the first call returning `Ok(Some(_))` and treats `Err` exactly like
`Ok(None)` (falls through to the next iteration). The source loop is
unbounded; `fuel` bounds the number of polls we model, and `none`
means the loop is still polling after `fuel` calls. -/
def waitForExitIdx (tw : Nat → TryWaitRes) : Nat → Option Nat
  | 0 => none
  | fuel + 1 =>
    match tw 0 with
    | TryWaitRes.exited => some 0
    | _ => (waitForExitIdx (fun k => tw (k + 1)) fuel).map (· + 1)

/-- The primitive actions the supervisor performs, each recording the
invocation of one operation and whether it succeeded. -/
inductive Action
  | reloadConfig (ok : Bool)
  | rewriteManifest (ok : Bool)
  | kill (ok : Bool)
  | tryWaitPoll
  | confirmExit
  | spawn (ok : Bool)
  | recvExit
deriving DecidableEq, Repr

/-- Outcomes of the collaborators for one iteration of the control
loop: whether config reload, manifest rewrite, kill and respawn
succeed, and the stream of `try_wait` results with the poll budget of
the model. -/
structure IterEnv where
  reloadOk : Bool
  rewriteOk : Bool
  killOk : Bool
  spawnOk : Bool
  tryWait : Nat → TryWaitRes
  waitFuel : Nat

/-- How one iteration of the control loop ends: proceed to the next
`rx.recv()`, return a fatal error to the caller, or keep busy-polling
`try_wait` forever. -/
inductive IterResult
  | next
  | failed (e : DevError)
  | hung
deriving DecidableEq, Repr

/-- One iteration of the `run_dev_watcher` loop body (lines 349-378)
on a received event: compute `event_path`; if its final component is
`tauri.conf.json`, reload the config then rewrite the manifest (each
`?` propagating failure); otherwise kill the supervised process
(failure is fatal), busy-poll `try_wait` until it reports an exit, and
respawn (failure is fatal). Returns the performed action trace and how
the iteration ends. -/
def handleEvent (env : IterEnv) (e : DebouncedEvent) :
    List Action × IterResult :=
  match eventPath e with
  | none => ([], IterResult.next)
  | some p =>
    if p.fileName = some "tauri.conf.json" then
      if env.reloadOk then
        if env.rewriteOk then
          ([Action.reloadConfig true, Action.rewriteManifest true],
           IterResult.next)
        else
          ([Action.reloadConfig true, Action.rewriteManifest false],
           IterResult.failed DevError.rewriteManifestFailed)
      else
        ([Action.reloadConfig false],
         IterResult.failed DevError.reloadConfigFailed)
    else
      if env.killOk then
        match waitForExitIdx env.tryWait env.waitFuel with
        | some k =>
          if env.spawnOk then
            (Action.kill true :: List.replicate k Action.tryWaitPoll ++
               [Action.confirmExit, Action.spawn true],
             IterResult.next)
          else
            (Action.kill true :: List.replicate k Action.tryWaitPoll ++
               [Action.confirmExit, Action.spawn false],
             IterResult.failed DevError.spawnFailed)
        | none =>
          (Action.kill true ::
             List.replicate env.waitFuel Action.tryWaitPoll,
           IterResult.hung)
      else
        ([Action.kill false], IterResult.failed DevError.killFailed)

/-- How a whole supervisor session ends in the model: the finite event
list was consumed and the loop is blocked on the next `rx.recv()`, a
fatal error was returned to the caller, the busy wait never confirmed
an exit, or (no-watch mode only) the single process exited and `dev`
returned `Ok(())`. -/
inductive Outcome
  | waitingForEvents
  | fatalError (e : DevError)
  | hungInWait
  | finished
deriving DecidableEq, Repr

/-- The control loop of `run_dev_watcher` over a finite list of
delivered events, each paired with its iteration's collaborator
outcomes; a fatal iteration stops the loop at once (the `?` returns),
a hung wait never reaches the next iteration. -/
def runLoop : List (DebouncedEvent × IterEnv) → List Action × Outcome
  | [] => ([], Outcome.waitingForEvents)
  | (e, env) :: rest =>
    match handleEvent env e with
    | (tr, IterResult.next) =>
      let res := runLoop rest
      (tr ++ res.1, res.2)
    | (tr, IterResult.failed err) => (tr, Outcome.fatalError err)
    | (tr, IterResult.hung) => (tr, Outcome.hungInWait)

/-- The session-level inputs of `run_dev_watcher`: whether the initial
`run(self)?` spawn succeeds, the `cargo metadata` invocation output
and parser, the result of `CargoSettings::load(&workspace_path)`, and
the tauri directory. -/
structure SetupEnv where
  initialSpawnOk : Bool
  metadataOutput : CmdOutput
  parseMetadata : String → Option CargoMetadata
  cargoSettingsLoad : Except DevError CargoSettings
  tauriPath : MPath

/-- Method `Rust::run_dev_watcher` (lines 299-380): spawn the initial child
(`run(self)?`), resolve the workspace root via `get_workspace_dir()?`,
compute the watch folders (loading the workspace `Cargo.toml` when the
tauri dir differs from the workspace root), then run the control loop.
Setup failures return before any event is processed. -/
def run_dev_watcher (setup : SetupEnv)
    (events : List (DebouncedEvent × IterEnv)) : List Action × Outcome :=
  if setup.initialSpawnOk then
    match
      (get_workspace_dir setup.metadataOutput setup.parseMetadata).bind
        (fun workspace_path =>
          watch_folders setup.tauriPath workspace_path
            setup.cargoSettingsLoad)
    with
    | Except.error e => ([Action.spawn true], Outcome.fatalError e)
    | Except.ok _ =>
      let res := runLoop events
      (Action.spawn true :: res.1, res.2)
  else
    ([Action.spawn false], Outcome.fatalError DevError.spawnFailed)

/-- Method `Rust::dev` (lines 159-191): when `no_watch` is set, invoke the
runner exactly once (`self.run_dev(...)?`), then block on
`rx.recv()` — the channel is signalled only by the process's exit
callback, so the `recvExit` action stands for "wait until the single
process exits" — and return `Ok(())`; otherwise enter
`run_dev_watcher`. -/
def dev (no_watch : Bool) (setup : SetupEnv)
    (events : List (DebouncedEvent × IterEnv)) : List Action × Outcome :=
  if no_watch then
    if setup.initialSpawnOk then
      ([Action.spawn true, Action.recvExit], Outcome.finished)
    else
      ([Action.spawn false], Outcome.fatalError DevError.spawnFailed)
  else
    run_dev_watcher setup events

/-- Effect of one action on the number of live supervised processes:
a successful spawn adds one; a confirmed exit (the `try_wait` call
that returned `Ok(Some(_))`) removes one. A kill alone does not: the
process may still be alive until its exit is confirmed. -/
def aliveDelta : Action → Int
  | Action.spawn true => 1
  | Action.confirmExit => -1
  | _ => 0

/-- Live-process count after a trace, starting from `cur`. -/
def aliveAfter : Int → List Action → Int
  | cur, [] => cur
  | cur, a :: tr => aliveAfter (cur + aliveDelta a) tr

/-- The single-instance check: scanning the trace with a running
live-process count, every successful spawn must happen while the count
is zero — i.e. the previous process's exit was confirmed strictly
before the next spawn, so no two supervised processes are ever alive
together. -/
def singleInstanceOk : Int → List Action → Bool
  | _, [] => true
  | cur, a :: tr =>
    match a with
    | Action.spawn true => (cur == 0) && singleInstanceOk (cur + 1) tr
    | Action.confirmExit => singleInstanceOk (cur - 1) tr
    | _ => singleInstanceOk cur tr

/-- Modelled from the spec: the contents of
`crate::dev::TAURI_DEV_WATCHER_GITIGNORE` (the built-in default ignore
patterns seeded into the default ignore file) live in `dev.rs`, which
is not part of the provided sources; only the fact that some fixed
default content is written matters here. -/
def TAURI_DEV_WATCHER_GITIGNORE : String := "target/"

/-- The filesystem state `lookup` touches while ensuring the default
ignore file: whether `$TMP/.tauri-dev` exists, and the content of
`$TMP/.tauri-dev/.gitignore` if that file exists. -/
structure IgnoreFs where
  tauriDevDirExists : Bool
  defaultGitignore : Option String
deriving DecidableEq, Repr

/-- The default-ignore-file side effect of `lookup` (lines 216-224):
`create_dir_all` the `.tauri-dev` directory, then, only if the
`.gitignore` file does not already exist, create it and write the
built-in default patterns. -/
def ensureDefaultGitignore (fs : IgnoreFs) : IgnoreFs :=
  let fs1 : IgnoreFs := { fs with tauriDevDirExists := true }
  match fs1.defaultGitignore with
  | some _ => fs1
  | none =>
    { fs1 with defaultGitignore := some TAURI_DEV_WATCHER_GITIGNORE }

/-- The path of the default ignore file,
`std::env::temp_dir()/.tauri-dev/.gitignore`; the temp dir is a
parameter. -/
def defaultGitignorePath (tmp : MPath) : MPath :=
  tmp.join ⟨false, [".tauri-dev", ".gitignore"]⟩

/-- The configuration `lookup` accumulates into
`ignore::WalkBuilder`: the walk root, the per-directory custom ignore
filename, the explicitly added ignore files in the order of the
`add_ignore` calls, the `require_git` and `ignore` flags, and the
depth limit. -/
structure WalkBuilderModel where
  root : MPath
  customIgnoreFilename : Option String
  ignoreFiles : List MPath
  requireGitFlag : Bool
  dotIgnoreFlag : Bool
  maxDepth : Option Nat
deriving DecidableEq, Repr

/-- Constructor `ignore::WalkBuilder::new(dir)` with the crate's defaults for the
fields the source later sets. -/
def WalkBuilderModel.new (dir : MPath) : WalkBuilderModel :=
  { root := dir
    customIgnoreFilename := none
    ignoreFiles := []
    requireGitFlag := true
    dotIgnoreFlag := true
    maxDepth := none }

/-- Builder call `add_custom_ignore_filename`: sets the per-directory filename. -/
def WalkBuilderModel.addCustomIgnoreFilename (b : WalkBuilderModel)
    (name : String) : WalkBuilderModel :=
  { b with customIgnoreFilename := some name }

/-- Builder call `add_ignore`: appends one more ignore file; existing entries are
kept, never replaced. -/
def WalkBuilderModel.addIgnore (b : WalkBuilderModel) (p : MPath) :
    WalkBuilderModel :=
  { b with ignoreFiles := b.ignoreFiles ++ [p] }

/-- The builder `lookup` constructs (lines 226-232):
`WalkBuilder::new(dir)`, `add_custom_ignore_filename(".taurignore")`,
`add_ignore` of the default ignore file, `add_ignore` of the
`TAURI_DEV_WATCHER_IGNORE_FILE` path when that environment variable is
set, then `require_git(false).ignore(false).max_depth(Some(1))`. -/
def lookupBuilder (tmp dir : MPath) (envIgnoreFile : Option MPath) :
    WalkBuilderModel :=
  let b := WalkBuilderModel.new dir
  let b := b.addCustomIgnoreFilename ".taurignore"
  let b := b.addIgnore (defaultGitignorePath tmp)
  let b :=
    match envIgnoreFile with
    | some f => b.addIgnore f
    | none => b
  { b with requireGitFlag := false, dotIgnoreFlag := false,
           maxDepth := some 1 }

/-- An immediate child of a watched root: its name and whether it is a
directory. -/
structure DirEntry where
  name : String
  isDirectory : Bool
deriving DecidableEq, Repr

/-- Modelled behaviour of the `ignore` crate's walk with
`max_depth(Some(1))`: it yields the root entry itself (depth 0, a
directory, never subject to the ignore rules) followed by the root's
immediate children that survive the active ignore rules (`ignored` is
the compiled rule set as a predicate). Each yielded entry is its path
and its file type's `is_dir`. -/
def walkDepth1 (dir : MPath) (children : List DirEntry)
    (ignored : DirEntry → Bool) : List (MPath × Bool) :=
  (dir, true) ::
    (children.filter (fun c => !ignored c)).map
      (fun c => (dir.join ⟨false, [c.name]⟩, c.isDirectory))

/-- Function `lookup` (lines 215-237): ensure the default ignore file, build
the walk, and for every yielded entry invoke the callback with
`(entry.file_type(), dir.join(entry.path()))`; the callback
invocations are returned as a list. -/
def lookup (dir : MPath) (children : List DirEntry)
    (ignored : DirEntry → Bool) : List (Bool × MPath) :=
  (walkDepth1 dir children ignored).map
    (fun e => (e.2, dir.join e.1))

/-- Watch-registration mode (`notify::RecursiveMode`). -/
inductive RecMode
  | recursive
  | nonRecursive
deriving DecidableEq, Repr

/-- The registration pass of `run_dev_watcher` (lines 330-345) for one
watch folder: every `lookup` callback invocation with `p != path`
registers `p` with `RecursiveMode::Recursive` when the entry is a
directory and `RecursiveMode::NonRecursive` otherwise. -/
def registrations (path : MPath) (children : List DirEntry)
    (ignored : DirEntry → Bool) : List (MPath × RecMode) :=
  (lookup path children ignored).filterMap
    (fun e =>
      if e.2 ≠ path then
        some (e.2,
          if e.1 then RecMode.recursive else RecMode.nonRecursive)
      else none)

/-- The iOS generator's file-creation callback decision
(`project.rs` lines 139-147): the file at `path` is opened for writing
(and created if missing) exactly when its final component is
`BuildTask.kt` or the file does not already exist; otherwise the
callback returns `None` and the file is left untouched. -/
def genFileDecision (path : MPath) (pathExists : Bool) : Option MPath :=
  if path.fileName = some "BuildTask.kt" || !pathExists then
    some path
  else
    none


/-! ## Theorems -/

/-- C3 counterexample: with a tauri directory distinct from the
workspace root and a workspace `Cargo.toml` whose `workspace` section
declares no `members` key, the resolved scope is the empty list, not
the claimed fallback to the project's own directory. -/
theorem c3_counterexample :
    watch_folders ⟨true, ["app", "src-tauri"]⟩ ⟨true, ["app"]⟩
        (Except.ok ⟨none, some ⟨none⟩, none⟩) =
      Except.ok ([] : List MPath) ∧
    ([] : List MPath) ≠ [⟨true, ["app", "src-tauri"]⟩] := by
  constructor
  · rfl
  · decide

/-- C3 (amended): the watch scope is the single project directory when
it equals the workspace root; otherwise it is the workspace's declared
members joined onto the workspace root; the fallback to the project's
own directory applies only when the root manifest has no `workspace`
section at all, while a `workspace` section with no declared member
list yields an empty scope. -/
theorem c3_scope_resolution (t w : MPath) (cs : CargoSettings) :
    (watch_folders t t (Except.ok cs) = Except.ok [t]) ∧
    (t ≠ w → cs.workspace = none →
      watch_folders t w (Except.ok cs) = Except.ok [t]) ∧
    (∀ ms, t ≠ w → cs.workspace = some ⟨some ms⟩ →
      watch_folders t w (Except.ok cs) =
        Except.ok (ms.map (fun p => w.join p))) ∧
    (t ≠ w → cs.workspace = some ⟨none⟩ →
      watch_folders t w (Except.ok cs) = Except.ok ([] : List MPath)) := by
  refine ⟨?_, ?_, ?_, ?_⟩
  · simp [watch_folders]
  · intro hne hw
    simp [watch_folders, hne, hw]
  · intro ms hne hw
    simp [watch_folders, hne, hw]
  · intro hne hw
    simp [watch_folders, hne, hw]

/-- Witness for the amended C3 statement at concrete inputs. -/
theorem c3_scope_resolution_witness :
    (watch_folders ⟨true, ["w"]⟩ ⟨true, ["w"]⟩
        (Except.ok ⟨none, none, none⟩) = Except.ok [⟨true, ["w"]⟩]) ∧
    (watch_folders ⟨true, ["t"]⟩ ⟨true, ["w"]⟩
        (Except.ok ⟨none, none, none⟩) = Except.ok [⟨true, ["t"]⟩]) ∧
    (watch_folders ⟨true, ["t"]⟩ ⟨true, ["w"]⟩
        (Except.ok ⟨none, some ⟨some [⟨false, ["a"]⟩, ⟨false, ["b"]⟩]⟩, none⟩) =
      Except.ok [⟨true, ["w", "a"]⟩, ⟨true, ["w", "b"]⟩]) ∧
    (watch_folders ⟨true, ["t"]⟩ ⟨true, ["w"]⟩
        (Except.ok ⟨none, some ⟨none⟩, none⟩) =
      Except.ok ([] : List MPath)) := by
  have h := c3_scope_resolution ⟨true, ["t"]⟩ ⟨true, ["w"]⟩
      ⟨none, some ⟨some [⟨false, ["a"]⟩, ⟨false, ["b"]⟩]⟩, none⟩
  refine ⟨(c3_scope_resolution ⟨true, ["w"]⟩ ⟨true, ["w"]⟩ ⟨none, none, none⟩).1,
    (c3_scope_resolution ⟨true, ["t"]⟩ ⟨true, ["w"]⟩ ⟨none, none, none⟩).2.1
      (by decide) rfl, ?_, ?_⟩
  · exact h.2.2.1 [⟨false, ["a"]⟩, ⟨false, ["b"]⟩] (by decide) rfl
  · exact (c3_scope_resolution ⟨true, ["t"]⟩ ⟨true, ["w"]⟩
      ⟨none, some ⟨none⟩, none⟩).2.2.2 (by decide) rfl

/-- C7: the control loop acts only on Create, Write, Remove and Rename
notifications — every other debounced notification kind yields no
action at all (empty trace, loop proceeds) — and a Rename event
contributes its destination path to all subsequent decisions. -/
theorem c7_event_kinds :
    (∀ env p, handleEvent env (DebouncedEvent.noticeWrite p) =
      ([], IterResult.next)) ∧
    (∀ env p, handleEvent env (DebouncedEvent.noticeRemove p) =
      ([], IterResult.next)) ∧
    (∀ env p, handleEvent env (DebouncedEvent.chmod p) =
      ([], IterResult.next)) ∧
    (∀ env, handleEvent env DebouncedEvent.rescan =
      ([], IterResult.next)) ∧
    (∀ env p, handleEvent env (DebouncedEvent.errorEvent p) =
      ([], IterResult.next)) ∧
    (∀ p, eventPath (DebouncedEvent.create p) = some p) ∧
    (∀ p, eventPath (DebouncedEvent.write p) = some p) ∧
    (∀ p, eventPath (DebouncedEvent.remove p) = some p) ∧
    (∀ src dest, eventPath (DebouncedEvent.rename src dest) = some dest) := by
  refine ⟨?_, ?_, ?_, ?_, ?_, ?_, ?_, ?_, ?_⟩ <;> intros <;> rfl

/-- C8: with watching disabled, `dev` invokes the runner exactly once,
then blocks until that single process exits (`recvExit`), returns
`Ok(())`, and performs no kill, no exit confirmation and no respawn —
independently of any filesystem events. -/
theorem c8_no_watch (setup : SetupEnv)
    (events : List (DebouncedEvent × IterEnv))
    (h : setup.initialSpawnOk = true) :
    dev true setup events =
      ([Action.spawn true, Action.recvExit], Outcome.finished) ∧
    (dev true setup events).1.count (Action.spawn true) = 1 ∧
    (∀ a ∈ (dev true setup events).1,
      a ≠ Action.kill true ∧ a ≠ Action.kill false ∧
      a ≠ Action.confirmExit) := by
  refine ⟨by simp [dev, h], by simp [dev, h], ?_⟩
  intro a ha
  simp [dev, h] at ha
  rcases ha with ha | ha <;> simp [ha]

/-- Witness for C8 at a concrete setup. -/
theorem c8_no_watch_witness :
    dev true
        ⟨true, ⟨true, "", ""⟩, fun _ => none,
          Except.ok ⟨none, none, none⟩, ⟨true, ["app"]⟩⟩ [] =
      ([Action.spawn true, Action.recvExit], Outcome.finished) :=
  (c8_no_watch
      ⟨true, ⟨true, "", ""⟩, fun _ => none,
        Except.ok ⟨none, none, none⟩, ⟨true, ["app"]⟩ ⟩ [] rfl).1

/-- C10: during iOS project generation the file-creation callback
opens (and so overwrites) an already-existing output file exactly when
its filename is `BuildTask.kt`; every other existing file is left
unchanged (the callback returns `None`), and a non-existing path is
always created. -/
theorem c10_ios_overwrite (path : MPath) (n : String)
    (hn : path.fileName = some n) :
    ((genFileDecision path true).isSome ↔ n = "BuildTask.kt") ∧
    genFileDecision path false = some path := by
  constructor
  · simp only [genFileDecision, hn]
    by_cases hb : n = "BuildTask.kt" <;> simp [hb]
  · simp [genFileDecision]

/-- Witness for C10 at concrete paths. -/
theorem c10_ios_overwrite_witness :
    (((genFileDecision ⟨true, ["gen", "BuildTask.kt"]⟩ true).isSome ↔
        ("BuildTask.kt" : String) = "BuildTask.kt") ∧
      genFileDecision ⟨true, ["gen", "BuildTask.kt"]⟩ false =
        some ⟨true, ["gen", "BuildTask.kt"]⟩) ∧
    (((genFileDecision ⟨true, ["gen", "project.yml"]⟩ true).isSome ↔
        ("project.yml" : String) = "BuildTask.kt") ∧
      genFileDecision ⟨true, ["gen", "project.yml"]⟩ false =
        some ⟨true, ["gen", "project.yml"]⟩) :=
  ⟨c10_ios_overwrite ⟨true, ["gen", "BuildTask.kt"]⟩ "BuildTask.kt" rfl,
   c10_ios_overwrite ⟨true, ["gen", "project.yml"]⟩ "project.yml" rfl⟩


/-- C2: an event whose path's final component is `tauri.conf.json`,
wherever it appeared, only ever reloads the configuration and
immediately rewrites the manifest — its trace contains nothing but the
reload and rewrite invocations (in that order, adjacent), never a
kill, a wait or a spawn — and on success the iteration proceeds
without touching the supervised process. -/
theorem c2_config_isolation (env : IterEnv) (e : DebouncedEvent)
    (p : MPath) (hp : eventPath e = some p)
    (hn : p.fileName = some "tauri.conf.json") :
    (∀ a ∈ (handleEvent env e).1,
      (∃ b, a = Action.reloadConfig b) ∨
      (∃ b, a = Action.rewriteManifest b)) ∧
    (env.reloadOk = true → env.rewriteOk = true →
      handleEvent env e =
        ([Action.reloadConfig true, Action.rewriteManifest true],
         IterResult.next)) := by
  cases hr : env.reloadOk <;> cases hw : env.rewriteOk <;>
    constructor <;>
    simp [handleEvent, hp, hn, hr, hw]

/-- Witness for C2 at a concrete config-file event under a nested
watched root. -/
theorem c2_config_isolation_witness :
    (∀ a ∈ (handleEvent
        ⟨true, true, true, true, fun _ => TryWaitRes.exited, 1⟩
        (DebouncedEvent.write ⟨true, ["w", "member", "tauri.conf.json"]⟩)).1,
      (∃ b, a = Action.reloadConfig b) ∨
      (∃ b, a = Action.rewriteManifest b)) ∧
    handleEvent ⟨true, true, true, true, fun _ => TryWaitRes.exited, 1⟩
        (DebouncedEvent.write ⟨true, ["w", "member", "tauri.conf.json"]⟩) =
      ([Action.reloadConfig true, Action.rewriteManifest true],
       IterResult.next) := by
  have h := c2_config_isolation
      ⟨true, true, true, true, fun _ => TryWaitRes.exited, 1⟩
      (DebouncedEvent.write ⟨true, ["w", "member", "tauri.conf.json"]⟩)
      ⟨true, ["w", "member", "tauri.conf.json"]⟩ rfl rfl
  exact ⟨h.1, h.2 rfl rfl⟩


/-- Helper: when the modelled busy loop reports an exit at poll `k`,
that poll is the first one returning `Ok(Some(_))`. -/
theorem waitForExitIdx_first (tw : Nat → TryWaitRes) (fuel k : Nat)
    (h : waitForExitIdx tw fuel = some k) :
    tw k = TryWaitRes.exited ∧ ∀ j, j < k → tw j ≠ TryWaitRes.exited := by
  induction fuel generalizing tw k with
  | zero => simp [waitForExitIdx] at h
  | succ n ih =>
    rw [waitForExitIdx] at h
    cases h0 : tw 0 with
    | exited =>
      rw [h0] at h
      simp at h
      subst h
      exact ⟨h0, fun j hj => absurd hj (Nat.not_lt_zero j)⟩
    | errRes =>
      rw [h0] at h
      simp at h
      obtain ⟨k0, hk0, rfl⟩ := h
      obtain ⟨h1, h2⟩ := ih (fun j => tw (j + 1)) k0 hk0
      refine ⟨h1, fun j hj => ?_⟩
      cases j with
      | zero => simp [h0]
      | succ j0 => exact h2 j0 (Nat.lt_of_succ_lt_succ hj)
    | notExited =>
      rw [h0] at h
      simp at h
      obtain ⟨k0, hk0, rfl⟩ := h
      obtain ⟨h1, h2⟩ := ih (fun j => tw (j + 1)) k0 hk0
      refine ⟨h1, fun j hj => ?_⟩
      cases j with
      | zero => simp [h0]
      | succ j0 => exact h2 j0 (Nat.lt_of_succ_lt_succ hj)

/-- Helper: when no poll ever reports an exit, the modelled busy loop
never breaks, whatever its poll budget. -/
theorem waitForExitIdx_none (tw : Nat → TryWaitRes) (fuel : Nat)
    (h : ∀ k, tw k ≠ TryWaitRes.exited) :
    waitForExitIdx tw fuel = none := by
  induction fuel generalizing tw with
  | zero => rfl
  | succ n ih =>
    rw [waitForExitIdx]
    cases h0 : tw 0 with
    | exited => exact absurd h0 (h 0)
    | errRes => simp [ih (fun j => tw (j + 1)) (fun j => h (j + 1))]
    | notExited => simp [ih (fun j => tw (j + 1)) (fun j => h (j + 1))]

/-- Helper: the busy loop only looks at whether a poll reported an
exit; an `Err` result is treated exactly like `Ok(None)`. -/
theorem waitForExitIdx_congr (tw tw' : Nat → TryWaitRes) (fuel : Nat)
    (h : ∀ k, tw k = TryWaitRes.exited ↔ tw' k = TryWaitRes.exited) :
    waitForExitIdx tw fuel = waitForExitIdx tw' fuel := by
  induction fuel generalizing tw tw' with
  | zero => rfl
  | succ n ih =>
    rw [waitForExitIdx, waitForExitIdx]
    have hrec :=
      ih (fun j => tw (j + 1)) (fun j => tw' (j + 1)) (fun j => h (j + 1))
    cases h0 : tw 0 <;> cases h1 : tw' 0 <;>
      first
        | (simp [hrec]; done)
        | (exact absurd ((h 0).mp h0) (by simp [h1]))
        | (exact absurd ((h 0).mpr h1) (by simp [h0]))

/-- C9: the post-kill wait loop breaks only when `try_wait` returns
`Ok(Some(status))` — the breaking poll is the first such result; if no
poll ever reports an exit the loop never breaks (no poll budget makes
it proceed); an `Err` from `try_wait` is silently discarded, the loop
behaving exactly as if `Ok(None)` had been returned; and when the loop
never confirms an exit, the whole iteration hangs (the supervisor
neither proceeds nor propagates any error). -/
theorem c9_wait_loop :
    (∀ (tw : Nat → TryWaitRes) (fuel k : Nat),
      waitForExitIdx tw fuel = some k →
      tw k = TryWaitRes.exited ∧ ∀ j, j < k → tw j ≠ TryWaitRes.exited) ∧
    (∀ (tw : Nat → TryWaitRes) (fuel : Nat),
      (∀ k, tw k ≠ TryWaitRes.exited) → waitForExitIdx tw fuel = none) ∧
    (∀ (tw tw' : Nat → TryWaitRes) (fuel : Nat),
      (∀ k, tw k = TryWaitRes.exited ↔ tw' k = TryWaitRes.exited) →
      waitForExitIdx tw fuel = waitForExitIdx tw' fuel) ∧
    (∀ (env : IterEnv) (e : DebouncedEvent) (p : MPath),
      eventPath e = some p → p.fileName ≠ some "tauri.conf.json" →
      env.killOk = true →
      waitForExitIdx env.tryWait env.waitFuel = none →
      handleEvent env e =
        (Action.kill true ::
           List.replicate env.waitFuel Action.tryWaitPoll,
         IterResult.hung)) := by
  refine ⟨waitForExitIdx_first, waitForExitIdx_none, waitForExitIdx_congr, ?_⟩
  intro env e p hp hn hk hw
  simp [handleEvent, hp, hn, hk, hw]

/-- Witness for C9 at concrete poll streams: polls that return `Err`
twice and then report an exit break at index 2; an all-`Err` stream
never breaks; and a hung wait makes the concrete iteration hang. -/
theorem c9_wait_loop_witness :
    ((fun k => if k < 2 then TryWaitRes.errRes else TryWaitRes.exited) 2 =
        TryWaitRes.exited ∧
      ∀ j, j < 2 →
        (fun k => if k < 2 then TryWaitRes.errRes else TryWaitRes.exited) j ≠
          TryWaitRes.exited) ∧
    waitForExitIdx (fun _ => TryWaitRes.errRes) 5 = none ∧
    handleEvent ⟨true, true, true, true, fun _ => TryWaitRes.errRes, 3⟩
        (DebouncedEvent.write ⟨true, ["app", "src", "main.rs"]⟩) =
      (Action.kill true :: List.replicate 3 Action.tryWaitPoll,
       IterResult.hung) := by
  refine ⟨c9_wait_loop.1
      (fun k => if k < 2 then TryWaitRes.errRes else TryWaitRes.exited)
      5 2 rfl,
    c9_wait_loop.2.1 (fun _ => TryWaitRes.errRes) 5
      (fun k => by simp),
    c9_wait_loop.2.2.2 ⟨true, true, true, true, fun _ => TryWaitRes.errRes, 3⟩
      (DebouncedEvent.write ⟨true, ["app", "src", "main.rs"]⟩)
      ⟨true, ["app", "src", "main.rs"]⟩ rfl (by simp [MPath.fileName]) rfl
      (c9_wait_loop.2.1 (fun _ => TryWaitRes.errRes) 3 (fun k => by simp))⟩


/-- C4: every fatal collaborator failure makes the supervisor return
the error to its caller at once, with the failed operation attempted
exactly once and no later event processed: a failed initial spawn, a
workspace-metadata query with a non-zero exit, a failed configuration
reload, a failed manifest rewrite, a failed kill, and a failed
respawn. In each case the resulting trace is stated exactly, so the
failing operation occurs once and nothing follows it. -/
theorem c4_fatal_no_retry :
    (∀ (setup : SetupEnv) (events : List (DebouncedEvent × IterEnv)),
      setup.initialSpawnOk = false →
      run_dev_watcher setup events =
        ([Action.spawn false], Outcome.fatalError DevError.spawnFailed)) ∧
    (∀ (setup : SetupEnv) (events : List (DebouncedEvent × IterEnv)),
      setup.initialSpawnOk = true →
      setup.metadataOutput.success = false →
      run_dev_watcher setup events =
        ([Action.spawn true],
         Outcome.fatalError
           (DevError.metadataNonZeroExit setup.metadataOutput.stderr))) ∧
    (∀ (env : IterEnv) (e : DebouncedEvent) (p : MPath)
        (rest : List (DebouncedEvent × IterEnv)),
      eventPath e = some p → p.fileName = some "tauri.conf.json" →
      env.reloadOk = false →
      runLoop ((e, env) :: rest) =
        ([Action.reloadConfig false],
         Outcome.fatalError DevError.reloadConfigFailed)) ∧
    (∀ (env : IterEnv) (e : DebouncedEvent) (p : MPath)
        (rest : List (DebouncedEvent × IterEnv)),
      eventPath e = some p → p.fileName = some "tauri.conf.json" →
      env.reloadOk = true → env.rewriteOk = false →
      runLoop ((e, env) :: rest) =
        ([Action.reloadConfig true, Action.rewriteManifest false],
         Outcome.fatalError DevError.rewriteManifestFailed)) ∧
    (∀ (env : IterEnv) (e : DebouncedEvent) (p : MPath)
        (rest : List (DebouncedEvent × IterEnv)),
      eventPath e = some p → p.fileName ≠ some "tauri.conf.json" →
      env.killOk = false →
      runLoop ((e, env) :: rest) =
        ([Action.kill false], Outcome.fatalError DevError.killFailed)) ∧
    (∀ (env : IterEnv) (e : DebouncedEvent) (p : MPath)
        (rest : List (DebouncedEvent × IterEnv)) (k : Nat),
      eventPath e = some p → p.fileName ≠ some "tauri.conf.json" →
      env.killOk = true →
      waitForExitIdx env.tryWait env.waitFuel = some k →
      env.spawnOk = false →
      runLoop ((e, env) :: rest) =
        (Action.kill true :: List.replicate k Action.tryWaitPoll ++
           [Action.confirmExit, Action.spawn false],
         Outcome.fatalError DevError.spawnFailed)) := by
  refine ⟨?_, ?_, ?_, ?_, ?_, ?_⟩
  · intro setup events hs
    simp [run_dev_watcher, hs]
  · intro setup events hs hm
    simp [run_dev_watcher, hs, get_workspace_dir, get_cargo_metadata, hm,
      Except.map, Except.bind]
  · intro env e p rest hp hn hr
    simp [runLoop, handleEvent, hp, hn, hr]
  · intro env e p rest hp hn hr hw
    simp [runLoop, handleEvent, hp, hn, hr, hw]
  · intro env e p rest hp hn hk
    simp [runLoop, handleEvent, hp, hn, hk]
  · intro env e p rest k hp hn hk hwi hs
    simp [runLoop, handleEvent, hp, hn, hk, hwi, hs]

/-- Witness for C4: each of the six fatal scenarios instantiated at a
concrete input. -/
theorem c4_fatal_no_retry_witness :
    (run_dev_watcher
        ⟨false, ⟨true, "", ""⟩, fun _ => none,
          Except.ok ⟨none, none, none⟩, ⟨true, ["t"]⟩⟩ [] =
      ([Action.spawn false], Outcome.fatalError DevError.spawnFailed)) ∧
    (run_dev_watcher
        ⟨true, ⟨false, "", "boom"⟩, fun _ => none,
          Except.ok ⟨none, none, none⟩, ⟨true, ["t"]⟩⟩ [] =
      ([Action.spawn true],
       Outcome.fatalError (DevError.metadataNonZeroExit "boom"))) ∧
    (runLoop
        [(DebouncedEvent.write ⟨true, ["t", "tauri.conf.json"]⟩,
          ⟨false, true, true, true, fun _ => TryWaitRes.exited, 1⟩),
         (DebouncedEvent.write ⟨true, ["t", "src", "main.rs"]⟩,
          ⟨true, true, true, true, fun _ => TryWaitRes.exited, 1⟩)] =
      ([Action.reloadConfig false],
       Outcome.fatalError DevError.reloadConfigFailed)) ∧
    (runLoop
        [(DebouncedEvent.write ⟨true, ["t", "tauri.conf.json"]⟩,
          ⟨true, false, true, true, fun _ => TryWaitRes.exited, 1⟩)] =
      ([Action.reloadConfig true, Action.rewriteManifest false],
       Outcome.fatalError DevError.rewriteManifestFailed)) ∧
    (runLoop
        [(DebouncedEvent.write ⟨true, ["t", "src", "main.rs"]⟩,
          ⟨true, true, false, true, fun _ => TryWaitRes.exited, 1⟩)] =
      ([Action.kill false], Outcome.fatalError DevError.killFailed)) ∧
    (runLoop
        [(DebouncedEvent.write ⟨true, ["t", "src", "main.rs"]⟩,
          ⟨true, true, true, false, fun _ => TryWaitRes.exited, 1⟩)] =
      (Action.kill true :: List.replicate 0 Action.tryWaitPoll ++
         [Action.confirmExit, Action.spawn false],
       Outcome.fatalError DevError.spawnFailed)) := by
  refine ⟨c4_fatal_no_retry.1 _ [] rfl,
    c4_fatal_no_retry.2.1 _ [] rfl rfl,
    c4_fatal_no_retry.2.2.1 _ _ ⟨true, ["t", "tauri.conf.json"]⟩ _ rfl rfl rfl,
    c4_fatal_no_retry.2.2.2.1 _ _ ⟨true, ["t", "tauri.conf.json"]⟩ _
      rfl rfl rfl rfl,
    c4_fatal_no_retry.2.2.2.2.1 _ _ ⟨true, ["t", "src", "main.rs"]⟩ _
      rfl (by simp [MPath.fileName]) rfl,
    c4_fatal_no_retry.2.2.2.2.2 _ _ ⟨true, ["t", "src", "main.rs"]⟩ _ 0
      rfl (by simp [MPath.fileName]) rfl rfl rfl⟩


/-- Helper: the single-instance check splits over concatenation, the
second part starting from the live count left by the first. -/
theorem singleInstanceOk_append (cur : Int) (a b : List Action) :
    singleInstanceOk cur (a ++ b) =
      (singleInstanceOk cur a && singleInstanceOk (aliveAfter cur a) b) := by
  induction a generalizing cur with
  | nil => simp [singleInstanceOk, aliveAfter]
  | cons x xs ih =>
    cases x with
    | reloadConfig b0 =>
      simp [singleInstanceOk, aliveAfter, aliveDelta, ih]
    | rewriteManifest b0 =>
      simp [singleInstanceOk, aliveAfter, aliveDelta, ih]
    | kill b0 =>
      simp [singleInstanceOk, aliveAfter, aliveDelta, ih]
    | tryWaitPoll =>
      simp [singleInstanceOk, aliveAfter, aliveDelta, ih]
    | confirmExit =>
      simp [singleInstanceOk, aliveAfter, aliveDelta, ih, sub_eq_add_neg]
    | spawn b0 =>
      cases b0 <;>
        simp [singleInstanceOk, aliveAfter, aliveDelta, ih, Bool.and_assoc]
    | recvExit =>
      simp [singleInstanceOk, aliveAfter, aliveDelta, ih]

/-- Helper: a run of bare polls passes the single-instance check. -/
theorem singleInstanceOk_replicate_poll (cur : Int) (k : Nat) :
    singleInstanceOk cur (List.replicate k Action.tryWaitPoll) = true := by
  induction k generalizing cur with
  | zero => simp [singleInstanceOk]
  | succ n ih => simp [List.replicate, singleInstanceOk, ih]

/-- Helper: the live count after a concatenation is computed in two
stages. -/
theorem aliveAfter_append (cur : Int) (a b : List Action) :
    aliveAfter cur (a ++ b) = aliveAfter (aliveAfter cur a) b := by
  induction a generalizing cur with
  | nil => simp [aliveAfter]
  | cons x xs ih => simp [aliveAfter, ih]

/-- Helper: bare polls do not change the live count. -/
theorem aliveAfter_replicate_poll (cur : Int) (k : Nat) :
    aliveAfter cur (List.replicate k Action.tryWaitPoll) = cur := by
  induction k generalizing cur with
  | zero => simp [aliveAfter]
  | succ n ih => simp [List.replicate, aliveAfter, aliveDelta, ih]

/-- Helper: one loop iteration keeps the single-instance check,
starting from exactly one live process. -/
theorem handleEvent_singleInstance (env : IterEnv) (e : DebouncedEvent) :
    singleInstanceOk 1 (handleEvent env e).1 = true := by
  cases he : eventPath e with
  | none => simp [handleEvent, he, singleInstanceOk]
  | some p =>
    by_cases hn : p.fileName = some "tauri.conf.json"
    · cases hr : env.reloadOk <;> cases hw : env.rewriteOk <;>
        simp [handleEvent, he, hn, hr, hw, singleInstanceOk]
    · cases hk : env.killOk
      · simp [handleEvent, he, hn, hk, singleInstanceOk]
      · cases hwi : waitForExitIdx env.tryWait env.waitFuel with
        | none =>
          simp [handleEvent, he, hn, hk, hwi, singleInstanceOk,
            singleInstanceOk_replicate_poll]
        | some k =>
          cases hs : env.spawnOk <;>
            simp [handleEvent, he, hn, hk, hwi, hs, singleInstanceOk,
              singleInstanceOk_append, aliveAfter_replicate_poll,
              singleInstanceOk_replicate_poll]

/-- Helper: an iteration that proceeds to the next event leaves exactly
one live process. -/
theorem handleEvent_alive (env : IterEnv) (e : DebouncedEvent)
    (h : (handleEvent env e).2 = IterResult.next) :
    aliveAfter 1 (handleEvent env e).1 = 1 := by
  cases he : eventPath e with
  | none => simp [handleEvent, he, aliveAfter]
  | some p =>
    by_cases hn : p.fileName = some "tauri.conf.json"
    · cases hr : env.reloadOk <;> cases hw : env.rewriteOk <;>
        simp [handleEvent, he, hn, hr, hw, aliveAfter, aliveDelta]
    · cases hk : env.killOk
      · simp [handleEvent, he, hn, hk] at h
      · cases hwi : waitForExitIdx env.tryWait env.waitFuel with
        | none => simp [handleEvent, he, hn, hk, hwi] at h
        | some k =>
          cases hs : env.spawnOk
          · simp [handleEvent, he, hn, hk, hwi, hs] at h
          · simp [handleEvent, he, hn, hk, hwi, hs, aliveAfter, aliveDelta,
              aliveAfter_append, aliveAfter_replicate_poll]

/-- Helper: the whole control loop keeps the single-instance check,
starting from the one process spawned before the loop. -/
theorem runLoop_singleInstance (events : List (DebouncedEvent × IterEnv)) :
    singleInstanceOk 1 (runLoop events).1 = true := by
  induction events with
  | nil => simp [runLoop, singleInstanceOk]
  | cons ev rest ih =>
    obtain ⟨e, env⟩ := ev
    have h1 := handleEvent_singleInstance env e
    cases hres : handleEvent env e with
    | mk tr r =>
      rw [hres] at h1
      cases r with
      | next =>
        have h2 := handleEvent_alive env e (by rw [hres])
        rw [hres] at h2
        simp only at h1 h2
        simp [runLoop, hres, singleInstanceOk_append, h1, h2, ih]
      | failed err => simpa [runLoop, hres] using h1
      | hung => simpa [runLoop, hres] using h1

/-- C1: over every sequence of events and collaborator outcomes, the
supervisor trace passes the single-instance check from zero live
processes: every successful spawn (the initial one included) happens
while the live count is zero, i.e. the previous process's exit has
been confirmed by the kill-and-wait before the next spawn, so at most
one supervised process is alive at any time. -/
theorem c1_single_instance (setup : SetupEnv)
    (events : List (DebouncedEvent × IterEnv)) :
    singleInstanceOk 0 (run_dev_watcher setup events).1 = true := by
  cases hs : setup.initialSpawnOk
  · simp [run_dev_watcher, hs, singleInstanceOk]
  · cases hms : (get_workspace_dir setup.metadataOutput
        setup.parseMetadata).bind
        (fun workspace_path =>
          watch_folders setup.tauriPath workspace_path
            setup.cargoSettingsLoad) with
    | error e0 =>
      simp [run_dev_watcher, hs, hms, singleInstanceOk]
    | ok folders =>
      simp [run_dev_watcher, hs, hms, singleInstanceOk,
        runLoop_singleInstance]


/-- Helper: joining an absolute directory onto itself is the identity,
and joining a one-component relative path appends that component. -/
theorem MPath.join_self (dir : MPath) (habs : dir.absolute = true) :
    dir.join dir = dir := by
  simp [MPath.join, habs]

/-- C5: for an absolute watch root, the registration pass registers
exactly the root's immediate children surviving the ignore rules — a
directory child recursively, a file child non-recursively — and the
root itself is never among the registered paths. -/
theorem c5_registration (dir : MPath) (children : List DirEntry)
    (ignored : DirEntry → Bool) (habs : dir.absolute = true) :
    registrations dir children ignored =
      (children.filter (fun c => !ignored c)).map
        (fun c => (⟨true, dir.components ++ [c.name]⟩,
          if c.isDirectory then RecMode.recursive
          else RecMode.nonRecursive)) ∧
    ∀ q ∈ registrations dir children ignored, q.1 ≠ dir := by
  have hdir : dir = ⟨true, dir.components⟩ := by
    cases dir with
    | mk a c => simp at habs; simp [habs]
  have hchild : ∀ n : String,
      dir.join ⟨false, [n]⟩ = ⟨true, dir.components ++ [n]⟩ := by
    intro n
    simp [MPath.join, habs]
  have habsArg : ∀ l : List String, dir.join ⟨true, l⟩ = ⟨true, l⟩ := by
    intro l
    simp [MPath.join]
  have hne : ∀ n : String,
      (⟨true, dir.components ++ [n]⟩ : MPath) ≠ dir := by
    intro n h
    rw [hdir] at h
    simp only [MPath.mk.injEq, true_and] at h
    have hlen := congrArg List.length h
    simp at hlen
  have hmain : registrations dir children ignored =
      (children.filter (fun c => !ignored c)).map
        (fun c => (⟨true, dir.components ++ [c.name]⟩,
          if c.isDirectory then RecMode.recursive
          else RecMode.nonRecursive)) := by
    unfold registrations lookup walkDepth1
    rw [List.map_cons, List.filterMap_cons]
    rw [MPath.join_self dir habs]
    simp only [ne_eq, not_true_eq_false, if_false, reduceIte]
    rw [List.map_map, List.filterMap_map]
    rw [List.filterMap_eq_map_iff_forall_eq_some.mpr ?_]
    intro c hc
    simp only [Function.comp_apply, hchild c.name, habsArg]
    simp [hne c.name]
  refine ⟨hmain, ?_⟩
  intro q hq
  rw [hmain] at hq
  simp only [List.mem_map] at hq
  obtain ⟨c, hc, rfl⟩ := hq
  exact hne c.name


/-- Witness for C5: a concrete root with three children, one of them
matching the ignore rules. -/
theorem c5_registration_witness :
    registrations ⟨true, ["w", "member"]⟩
        [⟨"src", true⟩, ⟨"target", true⟩, ⟨"Cargo.toml", false⟩]
        (fun c => c.name == "target") =
      [(⟨true, ["w", "member", "src"]⟩, RecMode.recursive),
       (⟨true, ["w", "member", "Cargo.toml"]⟩, RecMode.nonRecursive)] ∧
    ∀ q ∈ registrations ⟨true, ["w", "member"]⟩
        [⟨"src", true⟩, ⟨"target", true⟩, ⟨"Cargo.toml", false⟩]
        (fun c => c.name == "target"),
      q.1 ≠ ⟨true, ["w", "member"]⟩ := by
  have h := c5_registration ⟨true, ["w", "member"]⟩
      [⟨"src", true⟩, ⟨"target", true⟩, ⟨"Cargo.toml", false⟩]
      (fun c => c.name == "target") rfl
  exact ⟨h.1.trans (by decide), h.2⟩

/-- C6: the ignore set is built from the default ignore file in the
per-machine temporary location followed by the environment-override
file when present (the override is appended after the default, adding
to it, never replacing it), together with the per-directory custom
ignore filename `.taurignore`; `add_ignore` only ever appends; and the
creation of the default ignore file is idempotent — when the file
already exists, only the `create_dir_all` of its parent applies and
the file's content is untouched. -/
theorem c6_ignore_sources (tmp dir : MPath) (envFile : Option MPath)
    (fs : IgnoreFs) :
    ((lookupBuilder tmp dir envFile).customIgnoreFilename =
      some ".taurignore") ∧
    ((lookupBuilder tmp dir envFile).ignoreFiles =
      defaultGitignorePath tmp :: envFile.toList) ∧
    (∀ (b : WalkBuilderModel) (p : MPath),
      (b.addIgnore p).ignoreFiles = b.ignoreFiles ++ [p]) ∧
    (ensureDefaultGitignore (ensureDefaultGitignore fs) =
      ensureDefaultGitignore fs) ∧
    (∀ c, fs.defaultGitignore = some c →
      ensureDefaultGitignore fs = ⟨true, some c⟩) := by
  obtain ⟨d, g⟩ := fs
  refine ⟨?_, ?_, fun b p => rfl, ?_, ?_⟩
  · cases envFile <;> rfl
  · cases envFile <;> rfl
  · cases g <;> simp [ensureDefaultGitignore]
  · intro c hc
    simp only at hc
    subst hc
    simp [ensureDefaultGitignore]

/-- Witness for C6 at a concrete temp dir, watch root, override file
and a pre-existing default ignore file. -/
theorem c6_ignore_sources_witness :
    ((lookupBuilder ⟨true, ["tmp"]⟩ ⟨true, ["w"]⟩
        (some ⟨true, ["etc", "extra-ignore"]⟩)).customIgnoreFilename =
      some ".taurignore") ∧
    ((lookupBuilder ⟨true, ["tmp"]⟩ ⟨true, ["w"]⟩
        (some ⟨true, ["etc", "extra-ignore"]⟩)).ignoreFiles =
      defaultGitignorePath ⟨true, ["tmp"]⟩ ::
        [⟨true, ["etc", "extra-ignore"]⟩]) ∧
    (ensureDefaultGitignore (ensureDefaultGitignore ⟨false, some "old"⟩) =
      ensureDefaultGitignore ⟨false, some "old"⟩) ∧
    (ensureDefaultGitignore ⟨false, some "old"⟩ = ⟨true, some "old"⟩) := by
  have h := c6_ignore_sources ⟨true, ["tmp"]⟩ ⟨true, ["w"]⟩
      (some ⟨true, ["etc", "extra-ignore"]⟩) ⟨false, some "old"⟩
  exact ⟨h.1, h.2.1, h.2.2.2.1, h.2.2.2.2 "old" rfl⟩

end TauriDev
